import Mathlib

/-!
Shallow embedding of the Excel-API translation engine of the
simple_streamlit repository: value conversion (metadata_handler.py),
spreadsheet export (excel_utils.py), spreadsheet validation
(vip_datamakelaar/utils/validation.py), row translation
(handlers/excel_uploader.py) and the batched, retrying API client
(utils/api_client.py).  Cell values are modelled by an inductive type,
floats by exact decimal numbers, metadata dictionaries by structures
with optional fields, and Python dictionaries by ordered association
lists with insert-or-update semantics.  String utilities are
implemented by structural recursion over character lists so that every
definition evaluates inside the kernel.
-/

set_option maxHeartbeats 1000000

/-- Split a character list on a non-empty separator, non-overlapping
and leftmost first, with fuel bounding the number of steps. -/
def splitOnListAux (sep : List Char) : Nat → List Char → List Char → List (List Char)
  | 0, rest, cur => [cur ++ rest]
  | _ + 1, [], cur => [cur]
  | fuel + 1, c :: cs, cur =>
    if sep.isPrefixOf (c :: cs) then
      cur :: splitOnListAux sep fuel ((c :: cs).drop sep.length) []
    else
      splitOnListAux sep fuel cs (cur ++ [c])

/-- Model of the Python string split on a separator (and of the Lean
splitOn): an empty separator yields the whole string. -/
def strSplitOn (s sep : String) : List String :=
  if sep = "" then [s]
  else (splitOnListAux sep.data (s.data.length + 1) s.data []).map String.mk

/-- Prefix test on strings by character list. -/
def strStartsWith (s pre : String) : Bool :=
  pre.data.isPrefixOf s.data

/-- Suffix test on strings by character list. -/
def strEndsWith (s suf : String) : Bool :=
  suf.data.isSuffixOf s.data

/-- Whitespace strip on both ends, as the Python strip. -/
def strTrim (s : String) : String :=
  String.mk (((s.data.dropWhile Char.isWhitespace).reverse.dropWhile
    Char.isWhitespace).reverse)

/-- Uppercase a string character-wise. -/
def strToUpper (s : String) : String :=
  String.mk (s.data.map Char.toUpper)

/-- Lowercase a string character-wise. -/
def strToLower (s : String) : String :=
  String.mk (s.data.map Char.toLower)

/-- All characters satisfy the predicate. -/
def strAll (s : String) (p : Char → Bool) : Bool :=
  s.data.all p

/-- A calendar timestamp as far as the code observes it: the export and
conversion routines only ever read the year, month, day and hour of a
parsed pandas timestamp. -/
structure Timestamp where
  year : Nat
  month : Nat
  day : Nat
  hour : Nat
deriving DecidableEq, Repr

/-- Digit list to number, most significant first. -/
def digitsToNat (cs : List Char) : Nat :=
  cs.foldl (fun a c => a * 10 + (c.toNat - 48)) 0

/-- Date part of a timestamp string: YYYY-MM-DD with basic bounds. -/
def parseDatePart (d : String) : Option Timestamp :=
  match strSplitOn d "-" with
  | [y, m, dd] =>
    if y.length = 4 && strAll y Char.isDigit && m.length > 0 && strAll m Char.isDigit
        && dd.length > 0 && strAll dd Char.isDigit then
      let mv := digitsToNat m.data
      let dv := digitsToNat dd.data
      if 1 ≤ mv && mv ≤ 12 && 1 ≤ dv && dv ≤ 31 then
        some ⟨digitsToNat y.data, mv, dv, 0⟩
      else Option.none
    else Option.none
  | _ => Option.none

/-- Time part of a timestamp string: HH:MM:SS with basic bounds; only
the hour is observed downstream. -/
def parseTimePart (t : String) : Option Nat :=
  match strSplitOn t ":" with
  | [h, mi, se] =>
    if h.length > 0 && strAll h Char.isDigit && mi.length > 0 && strAll mi Char.isDigit
        && se.length > 0 && strAll se Char.isDigit then
      let hv := digitsToNat h.data
      if hv ≤ 23 && digitsToNat mi.data ≤ 59 && digitsToNat se.data ≤ 59 then
        some hv
      else Option.none
    else Option.none
  | _ => Option.none

/-- Model of pandas to-datetime on the string shapes the program feeds
it: a bare 4-digit year (parsed as January 1st of that year, midnight),
an ISO date YYYY-MM-DD, and an ISO date-time YYYY-MM-DDTHH:MM:SS with an
optional trailing Z, with a space accepted instead of the T.  Everything
else is a parse failure. -/
def parseTimestamp (s : String) : Option Timestamp :=
  if s.length = 4 && strAll s Char.isDigit then
    some ⟨digitsToNat s.data, 1, 1, 0⟩
  else
    let s1 := if strEndsWith s "Z" then s.dropRight 1 else s
    let parts :=
      if (strSplitOn s1 "T").length = 2 then strSplitOn s1 "T" else strSplitOn s1 " "
    match parts with
    | [d] => parseDatePart d
    | [d, t] =>
      match parseDatePart d, parseTimePart t with
      | some ts, some h => some { ts with hour := h }
      | _, _ => Option.none
    | _ => Option.none

/-- An exact decimal number num / 10 ^ exp, the model of a Python float
that was produced by parsing a finite decimal literal.  All the floats
this program manipulates arise that way, and on them decimal arithmetic
coincides with the float semantics observed by the code. -/
structure Dec where
  num : Int
  exp : Nat
deriving DecidableEq, Repr

/-- Whether the decimal is a whole number, the float is_integer test. -/
def decIsInt (d : Dec) : Bool :=
  d.num % ((10 : Int) ^ d.exp) == 0

/-- The integer value of a whole decimal, and the toward-zero truncation
of any decimal: Python int() on a float. -/
def decToInt (d : Dec) : Int :=
  Int.tdiv d.num ((10 : Int) ^ d.exp)

/-- Cancel factors of ten, keeping the value; recursion on the
exponent. -/
def decNormAux : Int → Nat → Dec
  | n, 0 => ⟨n, 0⟩
  | n, e + 1 => if n % 10 == 0 then decNormAux (Int.tdiv n 10) e else ⟨n, e + 1⟩

/-- Normal form of a decimal, with factors of ten cancelled. -/
def decNormalize (d : Dec) : Dec :=
  decNormAux d.num d.exp

/-- Decimal string of a decimal number: the CPython textual form of a
float parsed from a short decimal literal (shortest round-tripping
representation), so trailing zeros are cancelled first and a whole
value renders with a trailing .0 digit. -/
def decimalStr (d0 : Dec) : String :=
  let d := decNormalize d0
  if d.exp = 0 then toString d.num ++ ".0"
  else
    let scaled := d.num.natAbs
    let ip := scaled / 10 ^ d.exp
    let fracRaw := toString (scaled % 10 ^ d.exp)
    let frac := String.mk (List.replicate (d.exp - fracRaw.length) '0') ++ fracRaw
    (if d.num < 0 then "-" else "") ++ toString ip ++ "." ++ frac

/-- A cell or attribute value as exchanged between pandas, the converter
and the API payload: null (absence, NaN, NaT), a string, an integer or a
float. -/
inductive PyVal where
  | none
  | str (s : String)
  | int (n : Int)
  | float (d : Dec)
deriving DecidableEq, Repr

/-- Model of pandas isnull on a scalar. -/
def pdIsNull : PyVal → Bool
  | .none => true
  | _ => false

/-- Model of the Python str() text of a value. -/
def pyStr : PyVal → String
  | .none => "None"
  | .str s => s
  | .int n => toString n
  | .float d => decimalStr d

/-- Unsigned decimal mantissa: digits, or digits.digits, or .digits, or
digits followed by a dot. -/
def parseMantissa (s : String) : Option Dec :=
  match strSplitOn s "." with
  | [ip] =>
    if ip.length > 0 && strAll ip Char.isDigit then
      some ⟨(digitsToNat ip.data : Int), 0⟩
    else Option.none
  | [ip, fp] =>
    if (ip.length > 0 || fp.length > 0) && strAll ip Char.isDigit
        && strAll fp Char.isDigit then
      some ⟨(digitsToNat ip.data * 10 ^ fp.length + digitsToNat fp.data : Int), fp.length⟩
    else Option.none
  | _ => Option.none

/-- Signed decimal integer literal, for float exponents and for the
Python int() parse. -/
def parseExp (s : String) : Option Int :=
  let (sgn, body) :=
    if strStartsWith s "-" then ((-1 : Int), s.drop 1)
    else if strStartsWith s "+" then ((1 : Int), s.drop 1)
    else ((1 : Int), s)
  if body.length > 0 && strAll body Char.isDigit then
    some (sgn * (digitsToNat body.data : Int))
  else Option.none

/-- Scale a decimal by a signed power of ten. -/
def decScale (d : Dec) (e : Int) : Dec :=
  if 0 ≤ e then ⟨d.num * 10 ^ e.toNat, d.exp⟩ else ⟨d.num, d.exp + (-e).toNat⟩

/-- Model of the Python float() parse on finite decimal literals:
optional surrounding whitespace, optional sign, decimal mantissa,
optional exponent part.  Infinity and NaN spellings are out of the
modelled domain and count as parse failures. -/
def parseFloatLit (s0 : String) : Option Dec :=
  let s1 := strTrim s0
  let (neg, s2) :=
    if strStartsWith s1 "-" then (true, s1.drop 1)
    else if strStartsWith s1 "+" then (false, s1.drop 1)
    else (false, s1)
  let s3 := strToLower s2
  let signed : Dec → Dec := fun d => if neg then ⟨-d.num, d.exp⟩ else d
  match strSplitOn s3 "e" with
  | [m] => (parseMantissa m).map signed
  | [m, e] =>
    match parseMantissa m, parseExp e with
    | some d, some ev => some (signed (decScale d ev))
    | _, _ => Option.none
  | _ => Option.none

/-- Model of Python float(value): numbers pass through, strings are
parsed, null raises (returns no value). -/
def pyFloat? : PyVal → Option Dec
  | .none => Option.none
  | .str s => parseFloatLit s
  | .int n => some ⟨n, 0⟩
  | .float d => some d

/-- Model of Python int(string): optional surrounding whitespace,
optional sign, digits only; a decimal point is a failure. -/
def parseIntStr (s0 : String) : Option Int :=
  parseExp (strTrim s0)

/-- One attribute descriptor from the API metadata, and equally one
value of the metadata map: a Python dictionary with the keys the code
reads, each optional because dictionary lookups use .get defaults.  The
dataFormat field exists so that the lookup of the key dataFormat in the
validator can be modelled; API metadata only ever populates dateFormat,
so dataFormat stays empty there. -/
structure FieldMeta where
  name : String := ""
  type? : Option String := Option.none
  dateFormat? : Option String := Option.none
  dataFormat? : Option String := Option.none
  required? : Option Bool := Option.none
  attributeValueOptions? : Option (List String) := Option.none
deriving DecidableEq, Repr

/-- Zero-pad a number to two digits, as strftime day and month. -/
def pad2 (n : Nat) : String :=
  if n < 10 then "0" ++ toString n else toString n

/-- Zero-pad a year to four digits, as strftime %Y. -/
def pad4 (n : Nat) : String :=
  if n < 10 then "000" ++ toString n
  else if n < 100 then "00" ++ toString n
  else if n < 1000 then "0" ++ toString n
  else toString n

/-- DataTypeMapper._convert_date: format a parsed timestamp according to
the configured date format, with yyyy keeping only the year and
yyyy-MM-dd doubling as the default format. -/
def formatTimestamp (t : Timestamp) (fmt : Option String) : String :=
  if fmt = some "yyyy" then toString t.year
  else if fmt = some "dd-MM-yyyy" then pad2 t.day ++ "-" ++ pad2 t.month ++ "-" ++ pad4 t.year
  else pad4 t.year ++ "-" ++ pad2 t.month ++ "-" ++ pad2 t.day

/-- DataTypeMapper._convert_date on a cell value: parse, then format;
any parse failure is logged and becomes null.  The model covers string
cells, which is what the upload path produces for date columns. -/
def convertDate (value : PyVal) (fmt : Option String) : PyVal :=
  match value with
  | .str s =>
    match parseTimestamp s with
    | some t => .str (formatTimestamp t fmt)
    | Option.none => .none
  | _ => .none

/-- DataTypeMapper._convert_int: int(float(value)), truncating toward
zero; parse failure is logged and becomes null. -/
def convertInt (value : PyVal) : PyVal :=
  match pyFloat? value with
  | some d => .int (decToInt d)
  | Option.none => .none

/-- DataTypeMapper._convert_float: float(value); a whole number becomes
an integer, any other parsed number becomes its decimal string, and a
parse failure falls back to the plain str() form of the input. -/
def convertFloat (value : PyVal) : PyVal :=
  match pyFloat? value with
  | some d => if decIsInt d then .int (decToInt d) else .str (decimalStr d)
  | Option.none => .str (pyStr value)

/-- DataTypeMapper._convert_string. -/
def convertString (value : PyVal) : PyVal :=
  .str (pyStr value)

/-- DataTypeMapper.convert_value: null short-circuits, then dispatch on
the uppercased metadata type, every unknown type falling back to string
conversion. -/
def convertValue (value : PyVal) (meta : FieldMeta) : PyVal :=
  if pdIsNull value then .none
  else
    let fieldType := strToUpper (meta.type?.getD "")
    if fieldType = "DATE" then convertDate value meta.dateFormat?
    else if fieldType = "INT" then convertInt value
    else if fieldType = "FLOAT" then convertFloat value
    else convertString value

/-- ExcelHandler.create_excel_file boolean export step: a series map
with the dictionary true to Ja, false to Nee; null is left alone
(na_action ignore) and any other value maps to NaN. -/
def mapBooleanCell : PyVal → PyVal
  | .none => .none
  | .str "true" => .str "Ja"
  | .str "false" => .str "Nee"
  | _ => .none

/-- ExcelHandler.create_excel_file year export step, on a parsed
timestamp: a date falling on December 31 at hour 23 is the UTC
end-of-year marker, whose exported year is the calendar year plus one;
every other date exports its calendar year. -/
def exportYearTimestamp (t : Timestamp) : String :=
  if t.month = 12 && t.day = 31 && t.hour = 23 then toString (t.year + 1)
  else toString t.year

/-- ExcelHandler.create_excel_file year export step on one cell string:
pandas to-datetime with coercion, then the end-of-year adjusted year; an
unparseable cell coerces to NaT and renders empty, modelled as no
value. -/
def exportYearCell (s : String) : Option String :=
  (parseTimestamp s).map exportYearTimestamp

/-- Character class of the auto-generated identifier pattern: lowercase
hex or dash. -/
def isHexDashChar (c : Char) : Bool :=
  (('a' ≤ c) && (c ≤ 'f')) || (('0' ≤ c) && (c ≤ '9')) || (c = '-')

/-- Full match of the identifier regex, object type then underscore then
exactly eight lowercase-hex-or-dash characters, on a character list:
the first objectType length plus one characters must be the object type
and an underscore, and the remainder must be exactly eight characters
of the class. -/
def matchesAutoIdChars (ot cs : List Char) : Bool :=
  (cs.take (ot.length + 1) == ot ++ ['_'])
    && ((cs.drop (ot.length + 1)).length == 8)
    && (cs.drop (ot.length + 1)).all isHexDashChar

/-- Full match of the auto-generated identifier pattern on strings. -/
def matchesAutoId (objectType s : String) : Bool :=
  matchesAutoIdChars objectType.data s.data

/-- ExcelHandler.create_excel_file identifier scrub on one row: a string
identifier matching the auto-generated pattern is set to null, anything
else (including null, which the matcher treats as no match) is kept. -/
def scrubIdentifier (objectType : String) : Option String → Option String
  | Option.none => Option.none
  | some s => if matchesAutoId objectType s then Option.none else some s

/-- The vectorized mask-and-assign over the identifier column. -/
def scrubIdentifiers (objectType : String) (ids : List (Option String)) :
    List (Option String) :=
  ids.map (scrubIdentifier objectType)

/-- Lookup in an ordered association list modelling a Python dict. -/
def dictGet? {α : Type} (m : List (String × α)) (k : String) : Option α :=
  (m.find? (fun p => p.1 == k)).map (fun p => p.2)

/-- Assignment on an ordered association list modelling a Python dict:
an existing key is updated in place, a new key is appended. -/
def dictSet {α : Type} (m : List (String × α)) (k : String) (v : α) :
    List (String × α) :=
  if m.any (fun p => p.1 == k) then
    m.map (fun p => if p.1 == k then (k, v) else p)
  else m ++ [(k, v)]

/-- The simplified attribute name: the part before the first dash
separator, or the full name when there is no separator. -/
def simpleNameOf (fullName : String) : String :=
  (strSplitOn fullName " - ").headD fullName

/-- One loop step of create_attribute_mapping: the descriptor is stored
under its full name and then under its simplified name. -/
def insertAttr (m : List (String × FieldMeta)) (attr : FieldMeta) :
    List (String × FieldMeta) :=
  dictSet (dictSet m attr.name attr) (simpleNameOf attr.name) attr

/-- create_attribute_mapping: fold the descriptors into a dictionary
keyed by both full and simplified names. -/
def createAttributeMapping (attrs : List FieldMeta) : List (String × FieldMeta) :=
  attrs.foldl insertAttr []

/-- map_config_attributes_to_metadata: resolve every configured
attribute name, an unmatched name yielding the empty descriptor. -/
def mapConfigAttributesToMetadata (configAttrs : List String)
    (attributeMapping : List (String × FieldMeta)) : List (String × FieldMeta) :=
  configAttrs.foldl (fun m n => dictSet m n ((dictGet? attributeMapping n).getD {})) []

/-- A validation error record with the fields row (empty meaning the
textual N/A sentinel), column, error, found and expected. -/
structure VError where
  row : Option Nat
  column : String
  error : String
  found : String
  expected : String
deriving DecidableEq, Repr

/-- The uploaded sheet: its column names in order and its rows, each row
an association of column name to cell value. -/
structure DataFrame where
  cols : List String
  rows : List (List (String × PyVal))
deriving DecidableEq, Repr

/-- Cell access within a row; a column missing from the row reads as
null (the program only reads columns present in the sheet). -/
def rowGet (row : List (String × PyVal)) (c : String) : PyVal :=
  match row.find? (fun p => p.1 == c) with
  | some p => p.2
  | Option.none => .none

/-- Rows paired with their zero-based positional index. -/
def enumFrom {α : Type} (i : Nat) : List α → List (Nat × α)
  | [] => []
  | a :: l => (i, a) :: enumFrom (i + 1) l

/-- Concatenation of the lists produced per element, the loop-and-extend
idiom of the validator. -/
def collect {α β : Type} (f : α → List β) : List α → List β
  | [] => []
  | a :: l => f a ++ collect f l

/-- A list with duplicates removed, modelling a Python set; iteration
order of a set is arbitrary, so only membership is relied upon. -/
def setOfList : List String → List String
  | [] => []
  | x :: l => if x ∈ l then setOfList l else x :: setOfList l

/-- The ExcelValidator state: the metadata map, the columns mapping from
spreadsheet header to API field name, and the configured object type. -/
structure ExcelValidator where
  metadata : List (String × FieldMeta)
  columnsMapping : List (String × String)
  objectType : String
deriving Repr

/-- The reverse mapping dictionary comprehension, from API field name to
spreadsheet header. -/
def reverseMapping (cm : List (String × String)) : List (String × String) :=
  cm.foldl (fun m p => dictSet m p.2 p.1) []

/-- ExcelValidator._is_number: float() succeeds. -/
def isNumber (v : PyVal) : Bool :=
  (pyFloat? v).isSome

/-- ExcelValidator._is_valid_date: pandas to-datetime does not raise.
Numeric inputs are interpretable as epoch offsets and always parse. -/
def isValidDate : PyVal → Bool
  | .str s => (parseTimestamp s).isSome
  | _ => true

/-- The type_validators dictionary of _validate_value_type: acceptance
test per uppercased type name. -/
def pyTypeValidators : List (String × (PyVal → Bool)) :=
  [("STRING", fun v => match v with | .str _ => true | _ => false),
   ("NUMBER", fun v => isNumber v),
   ("BOOLEAN", fun v =>
     [some "ja", some "nee", Option.none].contains (some (strToLower (pyStr v)))),
   ("DATE", fun v => isValidDate v)]

/-- The error_messages dictionary of _validate_value_type: message and
expectation text per uppercased type name. -/
def pyTypeErrorMessages : List (String × (String × String)) :=
  [("STRING", ("Waarde moet een tekst zijn", "string")),
   ("NUMBER", ("Waarde moet een getal zijn", "getal")),
   ("BOOLEAN", ("Waarde moet Ja, Nee of leeg zijn", "Ja, Nee of leeg")),
   ("DATE", ("Waarde moet een geldige datum zijn", "datum (bijv. 01-01-2023)"))]

/-- ExcelValidator._validate_value_type, returning at most one error:
numeric cells are coerced to text when a string is expected, then the
validator registered for the uppercased metadata type is applied and a
failure is reported with the registered message; types outside the
dictionary are not checked. -/
def typeError? (row : Nat) (column : String) (value : PyVal) (meta : FieldMeta) :
    Option VError :=
  match meta.type? with
  | Option.none => Option.none
  | some t =>
    let tU := strToUpper t
    let v1 :=
      if tU = "STRING" then
        match value with
        | .int n => .str (pyStr (.int n))
        | .float d => .str (pyStr (.float d))
        | w => w
      else value
    match dictGet? pyTypeValidators tU, dictGet? pyTypeErrorMessages tU with
    | some validator, some msg =>
      if validator v1 then Option.none
      else some ⟨some row, column, msg.1, pyStr v1, msg.2⟩
    | _, _ => Option.none

/-- ExcelValidator._validate_value_format, returning at most one error:
the check is keyed on the dictionary entry dataFormat, and when that
entry equals yyyy the stringified cell must parse as an integer between
1900 and 2100. -/
def formatError? (row : Nat) (column : String) (value : PyVal) (meta : FieldMeta) :
    Option VError :=
  match meta.dataFormat? with
  | Option.none => Option.none
  | some fmt =>
    if fmt = "yyyy" then
      match parseIntStr (pyStr value) with
      | some y =>
        if 1900 ≤ y && y ≤ 2100 then Option.none
        else
          some ⟨some row, column, "Waarde moet een geldig jaartal zijn", pyStr value,
            "jaartal tussen 1900-2100"⟩
      | Option.none =>
        some ⟨some row, column, "Waarde moet een geldig jaartal zijn", pyStr value,
          "jaartal tussen 1900-2100"⟩
    else Option.none

/-- ExcelValidator._validate_allowed_values, returning at most one
error: with a non-empty option list, the stringified cell must be a
member. -/
def allowedError? (row : Nat) (column : String) (value : PyVal) (meta : FieldMeta) :
    Option VError :=
  match meta.attributeValueOptions? with
  | Option.none => Option.none
  | some opts =>
    if opts.isEmpty then Option.none
    else if opts.contains (pyStr value) then Option.none
    else
      some ⟨some row, column, "Waarde moet één van de toegestane opties zijn",
        pyStr value, "één van: " ++ String.intercalate ", " opts⟩

/-- ExcelValidator._validate_column_data: per cell, a blank on a
required field is an error and a blank otherwise skips the cell; a
non-blank cell runs the type, format and allowed-values checks. -/
def validateColumnData (df : DataFrame) (excelName : String) (meta : FieldMeta) :
    List VError :=
  collect
    (fun p =>
      let rowNum := p.1 + 2
      let value := rowGet p.2 excelName
      if pdIsNull value then
        if meta.required?.getD false then
          [⟨some rowNum, excelName, "Verplicht veld mag niet leeg zijn", "Leeg",
            "Niet leeg"⟩]
        else []
      else
        (typeError? rowNum excelName value meta).toList
          ++ (formatError? rowNum excelName value meta).toList
          ++ (allowedError? rowNum excelName value meta).toList)
    (enumFrom 0 df.rows)

/-- The per-column missing-column error of _validate_data_in_columns;
note its expected text differs from the one of
_validate_missing_columns. -/
def dataMissingColError (col : String) : VError :=
  ⟨Option.none, col, "Verplichte kolom ontbreekt", "Kolom ontbreekt", "Kolom aanwezig"⟩

/-- ExcelValidator._validate_data_in_columns: every entry of the reverse
mapping whose spreadsheet column is absent yields a missing-column error
unconditionally; present columns have their cells validated. -/
def validateDataInColumns (v : ExcelValidator) (df : DataFrame) : List VError :=
  collect
    (fun p =>
      if df.cols.contains p.2 then
        validateColumnData df p.2 ((dictGet? v.metadata p.1).getD {})
      else
        [dataMissingColError p.2])
    (reverseMapping v.columnsMapping)

/-- ExcelValidator._validate_required_columns: the identifier column
must exist and must have no blank cells. -/
def validateRequiredColumns (df : DataFrame) (excelCols : List String) : List VError :=
  collect
    (fun col =>
      if excelCols.contains col then
        collect
          (fun p =>
            if pdIsNull (rowGet p.2 col) then
              [⟨some (p.1 + 2), col, "Verplichte systeemkolom mag niet leeg zijn",
                "Lege waarde", "Niet-lege waarde"⟩]
            else [])
          (enumFrom 0 df.rows)
      else
        [⟨Option.none, col, "Verplichte systeemkolom ontbreekt", "Kolom ontbreekt",
          "Kolom moet aanwezig zijn"⟩])
    ["identifier"]

/-- The condition of _validate_missing_columns: some API field mapped to
this spreadsheet column is marked required in the metadata. -/
def requiredAny (v : ExcelValidator) (col : String) : Bool :=
  (reverseMapping v.columnsMapping).any
    (fun p => p.2 == col && (((dictGet? v.metadata p.1).getD {}).required?.getD false))

/-- The missing-configured-column error record. -/
def missingColError (col : String) : VError :=
  ⟨Option.none, col, "Verplichte kolom ontbreekt", "Kolom ontbreekt",
    "Kolom moet aanwezig zijn"⟩

/-- ExcelValidator._validate_missing_columns: configured columns absent
from the sheet are reported only when some underlying field is marked
required. -/
def validateMissingColumns (v : ExcelValidator) (excelCols configCols : List String) :
    List VError :=
  ((configCols.filter (fun c => !(excelCols.contains c))).filter
    (fun c => requiredAny v c)).map missingColError

/-- The unknown-column error record. -/
def extraColError (col : String) : VError :=
  ⟨Option.none, col, "Onbekende kolom aanwezig", "Extra kolom",
    "Kolom niet gedefinieerd in configuratie"⟩

/-- ExcelValidator._validate_extra_columns: every uploaded column not in
the configuration is reported. -/
def validateExtraColumns (excelCols configCols : List String) : List VError :=
  (excelCols.filter (fun c => !(configCols.contains c))).map extraColError

/-- ExcelValidator._validate_object_type: the objectType column must
exist; per row, a blank cell is an error and a non-blank cell must,
trimmed, equal the configured object type, with a non-string cell never
equal. -/
def validateObjectType (v : ExcelValidator) (df : DataFrame) (excelCols : List String) :
    List VError :=
  if excelCols.contains "objectType" then
    collect
      (fun p =>
        let value := rowGet p.2 "objectType"
        if pdIsNull value then
          [⟨some (p.1 + 2), "objectType", "Verplichte systeemkolom mag niet leeg zijn",
            "Lege waarde", "Niet-lege waarde"⟩]
        else
          let mismatch :=
            match value with
            | .str s => strTrim s != v.objectType
            | _ => true
          if mismatch then
            [⟨some (p.1 + 2), "objectType", "ObjectType komt niet overeen met configuratie",
              pyStr value, v.objectType⟩]
          else [])
      (enumFrom 0 df.rows)
  else
    [⟨Option.none, "objectType", "Verplichte systeemkolom ontbreekt", "Kolom ontbreekt",
      "Kolom moet aanwezig zijn"⟩]

/-- ExcelValidator.validate_excel: the column-set checks, the per-column
data checks and the objectType checks, concatenated. -/
def validateExcel (v : ExcelValidator) (df : DataFrame) : List VError :=
  let excelCols := setOfList df.cols
  let configCols :=
    setOfList (((reverseMapping v.columnsMapping).map (fun p => p.2))
      ++ ["objectType", "identifier"])
  validateRequiredColumns df excelCols
    ++ validateMissingColumns v excelCols configCols
    ++ validateExtraColumns excelCols configCols
    ++ validateDataInColumns v df
    ++ validateObjectType v df excelCols

/-- One translated API payload object, as built by the upload step:
object type, stringified identifier, converted attributes, and the
optional parent reference. -/
structure ApiObject where
  objectType : String
  identifier : String
  attributes : List (String × PyVal)
  parentObjectType : Option String := Option.none
  parentIdentifier : Option String := Option.none
deriving DecidableEq, Repr

/-- Python truthiness of an optional configuration string: present and
non-empty. -/
def optTruthy (o : Option String) : Bool :=
  o.getD "" != ""

/-- ExcelUploadStep5._prepare_data_to_send: with no identifier column
the translation fails with the missing-identifier-column error before
any row is processed; otherwise every row is converted through
DataTypeMapper.convert_value over the columns mapping, and the parent
reference is attached when configured, present and non-blank. -/
def prepareDataToSend (df : DataFrame) (objectType : String)
    (columnsMapping : List (String × String)) (metadataMap : List (String × FieldMeta))
    (parentObjectType? parentIdentifierCol? : Option String) :
    Except String (List ApiObject) :=
  if df.cols.contains "identifier" then
    .ok (df.rows.map (fun row =>
      let attrs := columnsMapping.map (fun p =>
        (p.2, convertValue (rowGet row p.1) ((dictGet? metadataMap p.2).getD {})))
      let base : ApiObject :=
        { objectType := objectType, identifier := pyStr (rowGet row "identifier"),
          attributes := attrs }
      if optTruthy parentObjectType? && optTruthy parentIdentifierCol? then
        let pcol := parentIdentifierCol?.getD ""
        if df.cols.contains pcol && !(pdIsNull (rowGet row pcol)) then
          { base with parentObjectType := some (parentObjectType?.getD ""),
                      parentIdentifier := some (pyStr (rowGet row pcol)) }
        else base
      else base))
  else .error "Geen \x27identifier\x27 kolom gevonden in de data!"

/-- Observable events of one update_objects run: an HTTP request for a
batch at a given zero-based retry index, or a backoff sleep in
seconds. -/
inductive UploadEvent where
  | request (batch retryIdx : Nat)
  | sleep (seconds : Nat)
deriving DecidableEq, Repr

/-- Outcome of a single PUT request, as the oracle for the network: a
successful response carrying result objects, a transient failure
(timeout or connection error), or any other request error. -/
inductive AttemptOutcome where
  | success (resp : List String)
  | transient
  | nonTransient
deriving DecidableEq, Repr

/-- Failure modes that propagate out of update_objects. -/
inductive UploadError where
  | transient
  | nonTransient
deriving DecidableEq, Repr

/-- The retry loop of APIClient.update_objects for one batch, from retry
index r: a success breaks with the response, a non-transient error
re-raises at once, and a transient error re-raises on the final retry
and otherwise sleeps five seconds times the one-based attempt number and
tries again.  The trace records requests and sleeps in order. -/
def runBatchAttempts (oracle : Nat → AttemptOutcome) (maxRetries b r : Nat) :
    List UploadEvent × Except UploadError (List String) :=
  if _h : r < maxRetries then
    match oracle r with
    | .success resp => ([.request b r], .ok resp)
    | .nonTransient => ([.request b r], .error .nonTransient)
    | .transient =>
      if r = maxRetries - 1 then ([.request b r], .error .transient)
      else
        let rest := runBatchAttempts oracle maxRetries b (r + 1)
        (.request b r :: .sleep (5 * (r + 1)) :: rest.1, rest.2)
  else ([], .ok [])
termination_by maxRetries - r

/-- The batch loop of APIClient.update_objects: batches are processed in
order, a successful batch appends its response objects to the running
list, and any raised error aborts the loop, discarding the accumulated
list. -/
def updateObjectsGo (oracle : Nat → Nat → AttemptOutcome) (maxRetries : Nat) :
    List (List ApiObject) → Nat → List String →
    List UploadEvent × Except UploadError (List String)
  | [], _, acc => ([], .ok acc)
  | _batch :: rest, b, acc =>
    let r := runBatchAttempts (oracle b) maxRetries b 0
    match r.2 with
    | .ok resp =>
      let r2 := updateObjectsGo oracle maxRetries rest (b + 1) (acc ++ resp)
      (r.1 ++ r2.1, r2.2)
    | .error e => (r.1, .error e)

/-- The slicing loop over objects_data with a step of batchSize. -/
def chunkList {α : Type} (batchSize : Nat) (l : List α) : List (List α) :=
  if l.isEmpty then []
  else if _h : batchSize = 0 then []
  else l.take batchSize :: chunkList batchSize (l.drop batchSize)
termination_by l.length
decreasing_by
  simp only [List.length_drop]
  have hne : l ≠ [] := by
    intro he
    simp [he] at *
  have : 0 < l.length := List.length_pos.mpr hne
  omega

/-- APIClient.update_objects: partition into batches and run the retry
loop over each, starting with an empty accumulated response list. -/
def updateObjects (oracle : Nat → Nat → AttemptOutcome) (objects : List ApiObject)
    (batchSize maxRetries : Nat) : List UploadEvent × Except UploadError (List String) :=
  updateObjectsGo oracle maxRetries (chunkList batchSize objects) 0 []

/-- The page-fetch loop of APIClient.get_all_objects, with fuel
modelling the unbounded while loop: fetch the current page, append its
objects, stop when the page is shorter than the page size, otherwise
continue with the next page.  The result records the requested page
numbers in order and the accumulated objects; exhausted fuel means the
loop was still running. -/
def getAllObjectsAux (pages : Nat → List String) (pageSize : Nat) :
    Nat → Nat → List String → Option (List Nat × List String)
  | 0, _, _ => Option.none
  | fuel + 1, page, acc =>
    let cur := pages page
    if cur.length < pageSize then some ([page], acc ++ cur)
    else
      match getAllObjectsAux pages pageSize fuel (page + 1) (acc ++ cur) with
      | some (reqs, objs) => some (page :: reqs, objs)
      | Option.none => Option.none

/-- APIClient.get_all_objects: the loop starting at page 0 with an empty
accumulator. -/
def getAllObjects (pages : Nat → List String) (pageSize fuel : Nat) :
    Option (List Nat × List String) :=
  getAllObjectsAux pages pageSize fuel 0 []

/-- The consecutive page numbers s, s+1, ... of a given count. -/
def rangeFrom (s : Nat) : Nat → List Nat
  | 0 => []
  | n + 1 => s :: rangeFrom (s + 1) n

/-- The objects of pages s through s+j, concatenated in order. -/
def concatPagesFrom (pages : Nat → List String) (s : Nat) : Nat → List String
  | 0 => pages s
  | j + 1 => pages s ++ concatPagesFrom pages (s + 1) j

/-- The trace of a batch that fails transiently on the first j attempts
and is then requested once more: requests at retry indices r, r+1, ...
interleaved with the growing backoff sleeps. -/
def successTrace (b r : Nat) : Nat → List UploadEvent
  | 0 => [.request b r]
  | j + 1 => .request b r :: .sleep (5 * (r + 1)) :: successTrace b (r + 1) j

/-- Number of requests in a trace. -/
def countRequests (tr : List UploadEvent) : Nat :=
  (tr.filter (fun e => match e with | .request _ _ => true | .sleep _ => false)).length

/-- The metadata of a DATE field with the year-only date format, as the
API metadata endpoint describes the year-of-last-maintenance fields. -/
def dateYyyyMeta : FieldMeta :=
  { name := "Jaar laatste dakonderhoud", type? := some "DATE",
    dateFormat? := some "yyyy", required? := some false }

/-- A BOOLEAN field descriptor. -/
def boolMeta : FieldMeta :=
  { name := "Gespoten dak", type? := some "BOOLEAN", required? := some false }

/-- A FLOAT field descriptor. -/
def floatMeta : FieldMeta :=
  { name := "Oppervlakte", type? := some "FLOAT", required? := some false }

/-- An INT field descriptor. -/
def intMeta : FieldMeta :=
  { name := "Aantal", type? := some "INT", required? := some false }

/-- Fixture for the dataFormat slip: a validator configured with one
year column whose API descriptor carries type DATE and dateFormat yyyy,
exactly as the metadata endpoint returns it. -/
def c5Validator : ExcelValidator :=
  { metadata := [("Jaar laatste dakonderhoud", dateYyyyMeta)],
    columnsMapping := [("Dakonderhoud jaar", "Jaar laatste dakonderhoud")],
    objectType := "Building" }

/-- Fixture sheet holding the out-of-range year 1850 in the year
column. -/
def c5Df : DataFrame :=
  { cols := ["objectType", "identifier", "Dakonderhoud jaar"],
    rows := [[("objectType", .str "Building"), ("identifier", .str "B1"),
      ("Dakonderhoud jaar", .str "1850")]] }

/-- A configured, non-required string descriptor. -/
def c6AttrMeta : FieldMeta :=
  { name := "AttrA", type? := some "STRING", required? := some false }

/-- Fixture validator with the single non-required column ColA. -/
def c6Validator : ExcelValidator :=
  { metadata := [("AttrA", c6AttrMeta)],
    columnsMapping := [("ColA", "AttrA")],
    objectType := "B" }

/-- Fixture sheet lacking the configured column ColA. -/
def c6Df : DataFrame :=
  { cols := ["objectType", "identifier"],
    rows := [[("objectType", .str "B"), ("identifier", .str "X1")]] }

/-- The last descriptor in the list whose full name or simplified name
equals the key: a match later in the list takes precedence, and the head
is only consulted when no later descriptor matches.  This is what an
insert-or-update dictionary retains after the build loop. -/
def lastAttrMatch : List FieldMeta → String → Option FieldMeta
  | [], _ => Option.none
  | a :: l, k =>
    match lastAttrMatch l k with
    | some r => some r
    | Option.none =>
      if a.name = k ∨ simpleNameOf a.name = k then some a else Option.none

/-- Two descriptors sharing the simplified name A. -/
def attrAx : FieldMeta := { name := "A - x", type? := some "STRING" }

/-- Second descriptor with simplified name A. -/
def attrAy : FieldMeta := { name := "A - y", type? := some "INT" }

theorem mem_collect {α β : Type} (f : α → List β) (l : List α) (b : β) :
    b ∈ collect f l ↔ ∃ a, a ∈ l ∧ b ∈ f a := by
  induction l with
  | nil => simp [collect]
  | cons x xs ih => simp [collect, ih]

theorem mem_setOfList (a : String) (l : List String) : a ∈ setOfList l ↔ a ∈ l := by
  induction l with
  | nil => simp [setOfList]
  | cons x xs ih =>
    by_cases h : x ∈ xs
    · simp only [setOfList, if_pos h, ih, List.mem_cons]
      constructor
      · exact fun h2 => Or.inr h2
      · rintro (rfl | h2)
        · exact h
        · exact h2
    · simp [setOfList, if_neg h, ih]

theorem dictGet?_cons {α : Type} (a : String × α) (l : List (String × α)) (k : String) :
    dictGet? (a :: l) k = if a.1 == k then some a.2 else dictGet? l k := by
  unfold dictGet?
  cases h : (a.1 == k) <;> simp [List.find?, h]

theorem dictGet?_mapUpd_ne {α : Type} (l : List (String × α)) (k k' : String) (v : α)
    (h : k ≠ k') :
    dictGet? (l.map (fun p => if p.1 == k then (k, v) else p)) k' = dictGet? l k' := by
  induction l with
  | nil => rfl
  | cons a l ih =>
    rw [List.map_cons, dictGet?_cons, dictGet?_cons]
    by_cases ha : a.1 = k
    · have e : (if (a.1 == k) = true then (k, v) else a) = (k, v) := by simp [ha]
      rw [e]
      have h2 : (((k, v).1 == k')) = false := by simp [h]
      have h3 : ((a.1 == k')) = false := by simp [ha, h]
      rw [h2, h3]
      simpa using ih
    · have e : (if (a.1 == k) = true then (k, v) else a) = a := by simp [ha]
      rw [e]
      cases h2 : (a.1 == k') with
      | true => simp [h2]
      | false => simpa [h2] using ih

theorem dictGet?_mapUpd_eq {α : Type} (l : List (String × α)) (k : String) (v : α)
    (hany : l.any (fun p => p.1 == k) = true) :
    dictGet? (l.map (fun p => if p.1 == k then (k, v) else p)) k = some v := by
  induction l with
  | nil => simp at hany
  | cons a l ih =>
    rw [List.map_cons, dictGet?_cons]
    by_cases ha : a.1 = k
    · have e : (if (a.1 == k) = true then (k, v) else a) = (k, v) := by simp [ha]
      rw [e]
      simp
    · have e : (if (a.1 == k) = true then (k, v) else a) = a := by simp [ha]
      have h1 : ((a.1 == k)) = false := by simp [ha]
      have hany2 : l.any (fun p => p.1 == k) = true := by
        simpa [h1] using hany
      rw [e, h1]
      simpa using ih hany2

theorem dictGet?_append_single {α : Type} (m : List (String × α)) (k k' : String) (v : α)
    (hany : m.any (fun p => p.1 == k) = false) :
    dictGet? (m ++ [(k, v)]) k' = if k = k' then some v else dictGet? m k' := by
  induction m with
  | nil =>
    by_cases h : k = k'
    · simp [dictGet?, List.find?, h]
    · have h2 : ((k == k')) = false := by simp [h]
      simp [dictGet?, List.find?, h2, h]
  | cons a l ih =>
    have h1 : ((a.1 == k)) = false := by
      simp only [List.any_cons, Bool.or_eq_false_iff] at hany
      exact hany.1
    have hany2 : l.any (fun p => p.1 == k) = false := by
      simp only [List.any_cons, Bool.or_eq_false_iff] at hany
      exact hany.2
    rw [List.cons_append, dictGet?_cons, dictGet?_cons]
    by_cases ha : a.1 = k'
    · have hk : ¬(k = k') := by
        intro he
        rw [← he] at ha
        simp [ha] at h1
      have h2 : ((a.1 == k')) = true := by simp [ha]
      rw [h2, if_neg hk]
      simp
    · have h2 : ((a.1 == k')) = false := by simp [ha]
      rw [h2]
      by_cases h : k = k'
      · simpa [h] using ih hany2
      · simpa [h] using ih hany2

theorem dictGet?_dictSet {α : Type} (m : List (String × α)) (k k' : String) (v : α) :
    dictGet? (dictSet m k v) k' = if k = k' then some v else dictGet? m k' := by
  cases hany : m.any (fun p => p.1 == k) with
  | true =>
    have hd : dictSet m k v = m.map (fun p => if p.1 == k then (k, v) else p) := by
      unfold dictSet
      rw [if_pos hany]
    rw [hd]
    by_cases h : k = k'
    · subst h
      rw [if_pos rfl]
      exact dictGet?_mapUpd_eq m k v hany
    · rw [if_neg h]
      exact dictGet?_mapUpd_ne m k k' v h
  | false =>
    have hd : dictSet m k v = m ++ [(k, v)] := by
      unfold dictSet
      rw [if_neg (by simp [hany])]
    rw [hd]
    exact dictGet?_append_single m k k' v hany

theorem dictGet?_insertAttr (m : List (String × FieldMeta)) (a : FieldMeta) (k : String) :
    dictGet? (insertAttr m a) k =
      if a.name = k ∨ simpleNameOf a.name = k then some a else dictGet? m k := by
  unfold insertAttr
  rw [dictGet?_dictSet, dictGet?_dictSet]
  by_cases h1 : simpleNameOf a.name = k
  · simp [h1]
  · by_cases h2 : a.name = k <;> simp [h1, h2]

theorem foldl_insertAttr_get (k : String) :
    ∀ (attrs : List FieldMeta) (m : List (String × FieldMeta)),
      dictGet? (attrs.foldl insertAttr m) k =
        match lastAttrMatch attrs k with
        | some r => some r
        | Option.none => dictGet? m k := by
  intro attrs
  induction attrs with
  | nil => intro m; rfl
  | cons a l ih =>
    intro m
    rw [List.foldl_cons, ih (insertAttr m a), dictGet?_insertAttr]
    cases hm : lastAttrMatch l k with
    | some r => simp [lastAttrMatch, hm]
    | none =>
      by_cases hc : a.name = k ∨ simpleNameOf a.name = k
      · simp [lastAttrMatch, hm, hc]
      · simp [lastAttrMatch, hm, hc]

/-- C4 counterexample: the two descriptors A - x and A - y share the
simplified name A, and create_attribute_mapping resolves A to the
second, later descriptor, not the first as the claim states. -/
theorem c4_first_match_counterexample :
    dictGet? (createAttributeMapping [attrAx, attrAy]) "A" = some attrAy
      ∧ attrAy ≠ attrAx := by
  constructor
  · decide
  · decide

/-- C4 (amended): when attribute descriptors share a simplified name the
name-to-descriptor index maps every key, simplified or full, to the LAST
descriptor carrying it: later entries overwrite earlier ones under a
shared key. -/
theorem c4_attribute_mapping_last_wins (attrs : List FieldMeta) (k : String) :
    dictGet? (createAttributeMapping attrs) k = lastAttrMatch attrs k := by
  unfold createAttributeMapping
  rw [foldl_insertAttr_get k attrs []]
  cases h : lastAttrMatch attrs k with
  | some r => rfl
  | none => rfl

set_option maxRecDepth 4000 in
theorem c1_bounded_roundtrip :
    ∀ d : Nat, d < 201 →
      convertValue (.str (toString (1900 + d))) dateYyyyMeta = .str (toString (1900 + d))
        ∧ exportYearCell (toString (1900 + d)) = some (toString (1900 + d)) := by
  decide

/-- C1: for a DATE field with dateFormat yyyy, converting a spreadsheet
year string to the API form (convert_value) and back to the spreadsheet
form (the create_excel_file year export) returns the same year string
for every year between 1900 and 2100; the one exception is an API
timestamp on December 31 at hour 23, whose exported year is exactly the
calendar year plus one, while every other timestamp exports its own
calendar year. -/
theorem c1_year_roundtrip :
    (∀ y : Nat, 1900 ≤ y → y ≤ 2100 →
      convertValue (.str (toString y)) dateYyyyMeta = .str (toString y)
        ∧ exportYearCell (toString y) = some (toString y))
    ∧ (∀ t : Timestamp, t.month = 12 → t.day = 31 → t.hour = 23 →
        exportYearTimestamp t = toString (t.year + 1))
    ∧ (∀ t : Timestamp, ¬(t.month = 12 ∧ t.day = 31 ∧ t.hour = 23) →
        exportYearTimestamp t = toString t.year) := by
  refine ⟨?_, ?_, ?_⟩
  · intro y h1 h2
    have hy : y = 1900 + (y - 1900) := by omega
    rw [hy]
    exact c1_bounded_roundtrip (y - 1900) (by omega)
  · intro t h1 h2 h3
    unfold exportYearTimestamp
    rw [h1, h2, h3]
    simp
  · intro t h
    unfold exportYearTimestamp
    rw [if_neg]
    intro hc
    simp only [Bool.and_eq_true, decide_eq_true_eq] at hc
    exact h ⟨hc.1.1, hc.1.2, hc.2⟩

/-- Witness for C1 at the year 2015 and at the end-of-year timestamp
2014-12-31 23:00. -/
theorem c1_year_roundtrip_witness :
    (convertValue (.str "2015") dateYyyyMeta = .str "2015"
      ∧ exportYearCell "2015" = some "2015")
    ∧ exportYearTimestamp ⟨2014, 12, 31, 23⟩ = "2015" := by
  constructor
  · have h := c1_year_roundtrip.1 2015 (by decide) (by decide)
    exact h
  · have h := c1_year_roundtrip.2.1 ⟨2014, 12, 31, 23⟩ rfl rfl rfl
    rw [h]
    decide

/-- C3 counterexample: importing the boolean cell Ja through
convert_value leaves it as the string Ja; it is not mapped back to the
API literal true, because convert_value has no BOOLEAN branch and falls
through to string conversion. -/
theorem c3_boolean_import_counterexample :
    convertValue (.str "Ja") boolMeta = .str "Ja"
      ∧ PyVal.str "Ja" ≠ PyVal.str "true" := by
  exact ⟨by decide, by decide⟩

theorem contains_ja_nee (x : String) :
    ([some "ja", some "nee", (Option.none : Option String)].contains (some x) = true)
      ↔ (x = "ja" ∨ x = "nee") := by
  simp [List.contains]

/-- C3 (amended): the export maps true to Ja and false to Nee; the
importing converter does NOT translate booleans back but stringifies
the cell verbatim (Ja stays Ja); and the type validator accepts exactly
the case-insensitive spellings of ja and nee, reporting every other
non-blank value as a validation error. -/
theorem c3_boolean_amended :
    (mapBooleanCell (.str "true") = .str "Ja" ∧ mapBooleanCell (.str "false") = .str "Nee")
    ∧ (∀ v : PyVal, v ≠ .none → convertValue v boolMeta = .str (pyStr v))
    ∧ (∀ (row : Nat) (col : String) (v : PyVal),
        typeError? row col v boolMeta = Option.none ↔
          (strToLower (pyStr v) = "ja" ∨ strToLower (pyStr v) = "nee")) := by
  refine ⟨⟨by decide, by decide⟩, ?_, ?_⟩
  · intro v hv
    cases v with
    | none => exact absurd rfl hv
    | str s => rfl
    | int n => rfl
    | float d => rfl
  · intro row col v
    have hred : typeError? row col v boolMeta =
        (if [some "ja", some "nee", Option.none].contains (some (strToLower (pyStr v)))
          then Option.none
          else some ⟨some row, col, "Waarde moet Ja, Nee of leeg zijn", pyStr v,
            "Ja, Nee of leeg"⟩) := rfl
    rw [hred]
    by_cases hc : [some "ja", some "nee", (Option.none : Option String)].contains
        (some (strToLower (pyStr v))) = true
    · rw [if_pos hc]
      exact iff_of_true rfl ((contains_ja_nee (strToLower (pyStr v))).mp hc)
    · rw [if_neg hc]
      have hn := fun h => hc ((contains_ja_nee (strToLower (pyStr v))).mpr h)
      exact iff_of_false (by simp) hn

/-- Witness for C3 (amended) at the cells Nee and x. -/
theorem c3_boolean_amended_witness :
    convertValue (.str "Nee") boolMeta = .str (pyStr (.str "Nee"))
      ∧ (typeError? 2 "Gespoten dak" (.str "x") boolMeta = Option.none ↔
          (strToLower (pyStr (.str "x")) = "ja" ∨ strToLower (pyStr (.str "x")) = "nee")) := by
  exact ⟨c3_boolean_amended.2.1 (.str "Nee") (by decide),
    c3_boolean_amended.2.2 2 "Gespoten dak" (.str "x")⟩

/-- C5 evidence of the code slip: the format check of the validator
reads the dictionary key dataFormat, while API metadata spells the key
dateFormat; hence a non-required DATE field with dateFormat yyyy never
produces a year-format error.  On the fixture sheet whose year cell
holds 1850, outside the range 1900-2100, the whole validator returns NO
errors, where the specified behaviour demands a format error; and for
every metadata record lacking a dataFormat entry the format check is
constantly empty. -/
theorem c5_year_format_never_checked :
    validateExcel c5Validator c5Df = []
    ∧ (∀ (row : Nat) (col : String) (value : PyVal) (meta : FieldMeta),
        meta.dataFormat? = Option.none →
          formatError? row col value meta = Option.none) := by
  constructor
  · decide
  · intro row col value meta h
    unfold formatError?
    rw [h]

/-- Witness for C5 at the year column descriptor and the cell 1850. -/
theorem c5_year_format_never_checked_witness :
    formatError? 2 "Dakonderhoud jaar" (.str "1850") dateYyyyMeta = Option.none :=
  c5_year_format_never_checked.2 2 "Dakonderhoud jaar" (.str "1850") dateYyyyMeta
    (by decide)

/-- C7: row translation checks the identifier column once, before any
per-row work: without the column it fails with the
missing-identifier-column error and produces no object list at all, and
with the column present no such error is raised and one payload object
is built per row. -/
theorem c7_identifier_precondition (df : DataFrame) (objectType : String)
    (columnsMapping : List (String × String)) (metadataMap : List (String × FieldMeta))
    (parentObjectType? parentIdentifierCol? : Option String) :
    (df.cols.contains "identifier" = false →
      prepareDataToSend df objectType columnsMapping metadataMap
          parentObjectType? parentIdentifierCol?
        = .error "Geen \x27identifier\x27 kolom gevonden in de data!")
    ∧ (df.cols.contains "identifier" = true →
      ∃ objs : List ApiObject,
        prepareDataToSend df objectType columnsMapping metadataMap
            parentObjectType? parentIdentifierCol? = .ok objs
          ∧ objs.length = df.rows.length) := by
  constructor
  · intro h
    unfold prepareDataToSend
    rw [if_neg (by rw [h]; simp)]
  · intro h
    unfold prepareDataToSend
    rw [if_pos h]
    exact ⟨_, rfl, by simp⟩

/-- Witness for C7 on a sheet without and a sheet with the identifier
column. -/
theorem c7_identifier_precondition_witness :
    prepareDataToSend ⟨["objectType"], [[("objectType", .str "B")]]⟩ "B" [] []
        Option.none Option.none
      = .error "Geen \x27identifier\x27 kolom gevonden in de data!"
    ∧ ∃ objs : List ApiObject,
        prepareDataToSend ⟨["objectType", "identifier"],
            [[("objectType", .str "B"), ("identifier", .str "X1")]]⟩ "B" [] []
          Option.none Option.none = .ok objs
        ∧ objs.length = 1 := by
  constructor
  · exact (c7_identifier_precondition _ "B" [] [] Option.none Option.none).1 (by decide)
  · exact (c7_identifier_precondition _ "B" [] [] Option.none Option.none).2 (by decide)

/-- C10: on a FLOAT field, conversion of a non-null value is total and
never yields null; a value parseable as a float becomes an integer when
it is a whole number and its decimal string form otherwise, and a value
that fails to parse becomes its plain string form, whereas on an INT
field the same parse failure yields null. -/
theorem c10_float_conversion_total :
    (∀ v : PyVal, v ≠ .none → convertValue v floatMeta ≠ .none)
    ∧ (∀ (v : PyVal) (d : Dec), v ≠ .none → pyFloat? v = some d →
        convertValue v floatMeta =
          (if decIsInt d then .int (decToInt d) else .str (decimalStr d)))
    ∧ (∀ v : PyVal, v ≠ .none → pyFloat? v = Option.none →
        convertValue v floatMeta = .str (pyStr v))
    ∧ (∀ v : PyVal, v ≠ .none → pyFloat? v = Option.none →
        convertValue v intMeta = .none) := by
  have hfloat : ∀ v : PyVal, v ≠ .none → convertValue v floatMeta = convertFloat v := by
    intro v hv
    cases v with
    | none => exact absurd rfl hv
    | str s => rfl
    | int n => rfl
    | float d => rfl
  have hint : ∀ v : PyVal, v ≠ .none → convertValue v intMeta = convertInt v := by
    intro v hv
    cases v with
    | none => exact absurd rfl hv
    | str s => rfl
    | int n => rfl
    | float d => rfl
  refine ⟨?_, ?_, ?_, ?_⟩
  · intro v hv
    rw [hfloat v hv]
    unfold convertFloat
    cases hp : pyFloat? v with
    | some d =>
      by_cases hi : decIsInt d = true
      · simp [hi]
      · simp [hi]
    | none => simp
  · intro v d hv hp
    rw [hfloat v hv]
    unfold convertFloat
    rw [hp]
  · intro v hv hp
    rw [hfloat v hv]
    unfold convertFloat
    rw [hp]
  · intro v hv hp
    rw [hint v hv]
    unfold convertInt
    rw [hp]

/-- Witness for C10 at the cells 2.5, 4.0 and abc. -/
theorem c10_float_conversion_total_witness :
    convertValue (.str "2.5") floatMeta
        = (if decIsInt ⟨25, 1⟩ then .int (decToInt ⟨25, 1⟩) else .str (decimalStr ⟨25, 1⟩))
    ∧ convertValue (.str "4.0") floatMeta
        = (if decIsInt ⟨40, 1⟩ then .int (decToInt ⟨40, 1⟩) else .str (decimalStr ⟨40, 1⟩))
    ∧ convertValue (.str "abc") floatMeta = .str (pyStr (.str "abc"))
    ∧ convertValue (.str "abc") intMeta = .none := by
  exact ⟨c10_float_conversion_total.2.1 (.str "2.5") ⟨25, 1⟩ (by decide) (by decide),
    c10_float_conversion_total.2.1 (.str "4.0") ⟨40, 1⟩ (by decide) (by decide),
    c10_float_conversion_total.2.2.1 (.str "abc") (by decide) (by decide),
    c10_float_conversion_total.2.2.2 (.str "abc") (by decide) (by decide)⟩

theorem matchesAutoIdChars_iff (ot cs : List Char) :
    matchesAutoIdChars ot cs = true ↔
      ∃ t : List Char, cs = ot ++ '_' :: t ∧ t.length = 8
        ∧ ∀ c ∈ t, isHexDashChar c = true := by
  unfold matchesAutoIdChars
  constructor
  · intro h
    simp only [Bool.and_eq_true, beq_iff_eq, List.all_eq_true] at h
    obtain ⟨⟨h1, h2⟩, h3⟩ := h
    refine ⟨cs.drop (ot.length + 1), ?_, h2, h3⟩
    conv_lhs => rw [← List.take_append_drop (ot.length + 1) cs]
    rw [h1]
    simp
  · rintro ⟨t, rfl, hlen, hall⟩
    have hsplit : ot ++ '_' :: t = (ot ++ ['_']) ++ t := by simp
    have hlen2 : (ot ++ ['_']).length = ot.length + 1 := by simp
    have e1 : (ot ++ '_' :: t).take (ot.length + 1) = ot ++ ['_'] := by
      rw [hsplit, List.take_left' hlen2]
    have e2 : (ot ++ '_' :: t).drop (ot.length + 1) = t := by
      rw [hsplit, List.drop_left' hlen2]
    rw [e1, e2]
    simp only [hlen, List.all_eq_true]
    simp
    exact hall

/-- C2: on every row of the export, an identifier equal to the object
type followed by an underscore and exactly eight lowercase-hex-or-dash
characters is blanked by the identifier scrub, and every other
identifier is preserved verbatim. -/
theorem c2_identifier_scrub (ot : String) (ids : List (Option String)) (i : Nat)
    (s : String) (h : ids[i]? = some (some s)) :
    ((∃ t : List Char, s.data = ot.data ++ '_' :: t ∧ t.length = 8
        ∧ ∀ c ∈ t, isHexDashChar c = true) →
      (scrubIdentifiers ot ids)[i]? = some Option.none)
    ∧ ((¬∃ t : List Char, s.data = ot.data ++ '_' :: t ∧ t.length = 8
        ∧ ∀ c ∈ t, isHexDashChar c = true) →
      (scrubIdentifiers ot ids)[i]? = some (some s)) := by
  have hm : (scrubIdentifiers ot ids)[i]? = some (scrubIdentifier ot (some s)) := by
    unfold scrubIdentifiers
    rw [List.getElem?_map, h]
    rfl
  constructor
  · intro hp
    have hb : matchesAutoId ot s = true := (matchesAutoIdChars_iff ot.data s.data).mpr hp
    rw [hm]
    simp [scrubIdentifier, hb]
  · intro hnp
    have hb : matchesAutoId ot s = false := by
      cases hb2 : matchesAutoId ot s with
      | true => exact absurd ((matchesAutoIdChars_iff ot.data s.data).mp hb2) hnp
      | false => rfl
    rw [hm]
    simp [scrubIdentifier, hb]

/-- Witness for C2: the auto-generated identifier Building_ab12-3cd is
blanked, the human identifier B2 survives. -/
theorem c2_identifier_scrub_witness :
    (scrubIdentifiers "Building" [some "Building_ab12-3cd", some "B2"])[0]?
        = some Option.none
    ∧ (scrubIdentifiers "Building" [some "Building_ab12-3cd", some "B2"])[1]?
        = some (some "B2") := by
  constructor
  · exact (c2_identifier_scrub "Building" [some "Building_ab12-3cd", some "B2"] 0
      "Building_ab12-3cd" (by decide)).1
      ⟨['a', 'b', '1', '2', '-', '3', 'c', 'd'], by decide, by decide, by decide⟩
  · refine (c2_identifier_scrub "Building" [some "Building_ab12-3cd", some "B2"] 1
      "B2" (by decide)).2 ?_
    intro hp
    have hb := (matchesAutoIdChars_iff "Building".data "B2".data).mpr hp
    have hf : matchesAutoIdChars "Building".data "B2".data = false := by decide
    rw [hf] at hb
    cases hb

theorem rangeFrom_length (s n : Nat) : (rangeFrom s n).length = n := by
  induction n generalizing s with
  | zero => rfl
  | succ n ih => simp [rangeFrom, ih]

theorem getAllObjectsAux_first_short (pages : Nat → List String) (pageSize : Nat) :
    ∀ (j fuel s : Nat) (acc : List String), j + 1 ≤ fuel →
      (∀ i, s ≤ i → i < s + j → pageSize ≤ (pages i).length) →
      (pages (s + j)).length < pageSize →
      getAllObjectsAux pages pageSize fuel s acc
        = some (rangeFrom s (j + 1), acc ++ concatPagesFrom pages s j) := by
  intro j
  induction j with
  | zero =>
    intro fuel s acc hfuel _ hshort
    obtain ⟨f, rfl⟩ : ∃ f, fuel = f + 1 := ⟨fuel - 1, by omega⟩
    unfold getAllObjectsAux
    rw [if_pos (by simpa using hshort)]
    rfl
  | succ j ih =>
    intro fuel s acc hfuel hlong hshort
    obtain ⟨f, rfl⟩ : ∃ f, fuel = f + 1 := ⟨fuel - 1, by omega⟩
    unfold getAllObjectsAux
    have hcur : ¬((pages s).length < pageSize) := by
      have := hlong s le_rfl (by omega)
      omega
    rw [if_neg hcur]
    rw [ih f (s + 1) (acc ++ pages s) (by omega)
      (fun i h1 h2 => hlong i (by omega) (by omega))
      (by rw [show s + 1 + j = s + (j + 1) from by omega]; exact hshort)]
    simp [rangeFrom, concatPagesFrom]

/-- C9: the paginator requests pages starting at page 0 and stops
exactly after the first page whose object count is strictly below the
page size, returning the concatenation of all fetched pages in order
after exactly one request per fetched page. -/
theorem c9_paginator_stops_after_first_short_page (pages : Nat → List String)
    (pageSize fuel k : Nat) (h1 : ∀ i, i < k → pageSize ≤ (pages i).length)
    (h2 : (pages k).length < pageSize) (h3 : k + 1 ≤ fuel) :
    getAllObjects pages pageSize fuel = some (rangeFrom 0 (k + 1), concatPagesFrom pages 0 k)
      ∧ (rangeFrom 0 (k + 1)).length = k + 1 := by
  constructor
  · unfold getAllObjects
    have := getAllObjectsAux_first_short pages pageSize k fuel 0 [] h3
      (fun i _ hi => h1 i (by omega)) (by simpa using h2)
    simpa using this
  · exact rangeFrom_length 0 (k + 1)

/-- Witness for C9 on the boundary scenario of the spec: page 0 holds
exactly pageSize objects, page 1 is empty, so exactly two requests are
made and the page-0 objects are returned. -/
theorem c9_paginator_witness :
    getAllObjects (fun i => if i = 0 then ["o1", "o2"] else []) 2 9
      = some ([0, 1], ["o1", "o2"]) := by
  have h := (c9_paginator_stops_after_first_short_page
    (fun i => if i = 0 then ["o1", "o2"] else []) 2 9 1
    (by decide) (by decide) (by decide)).1
  rw [h]
  decide

theorem countRequests_successTrace (b : Nat) :
    ∀ (j r : Nat), countRequests (successTrace b r j) = j + 1 := by
  intro j
  induction j with
  | zero => intro r; rfl
  | succ j ih =>
    intro r
    simp only [successTrace, countRequests, List.filter]
    have := ih (r + 1)
    simp only [countRequests] at this
    simp [this]

theorem runBatchAttempts_success (oracle : Nat → AttemptOutcome)
    (maxRetries b : Nat) :
    ∀ (j r : Nat) (resp : List String), r + j < maxRetries →
      (∀ i, r ≤ i → i < r + j → oracle i = .transient) →
      oracle (r + j) = .success resp →
      runBatchAttempts oracle maxRetries b r = (successTrace b r j, .ok resp) := by
  intro j
  induction j with
  | zero =>
    intro r resp hlt _ hsucc
    unfold runBatchAttempts
    rw [dif_pos (by omega)]
    rw [show r + 0 = r from rfl] at hsucc
    rw [hsucc]
    rfl
  | succ j ih =>
    intro r resp hlt htr hsucc
    unfold runBatchAttempts
    rw [dif_pos (by omega)]
    have h0 : oracle r = .transient := htr r le_rfl (by omega)
    rw [h0]
    have hne : ¬(r = maxRetries - 1) := by omega
    rw [if_neg hne]
    have hrec := ih (r + 1) resp (by omega)
      (fun i hi1 hi2 => htr i (by omega) (by omega))
      (by rw [show r + 1 + j = r + (j + 1) from by omega]; exact hsucc)
    rw [hrec]
    rfl

theorem runBatchAttempts_exhaust (oracle : Nat → AttemptOutcome) (maxRetries b : Nat) :
    ∀ (fuel r : Nat), maxRetries - r ≤ fuel → r < maxRetries →
      (∀ i, r ≤ i → i < maxRetries → oracle i = .transient) →
      (runBatchAttempts oracle maxRetries b r).2 = .error .transient := by
  intro fuel
  induction fuel with
  | zero =>
    intro r hle hlt _
    omega
  | succ f ih =>
    intro r hle hlt htr
    unfold runBatchAttempts
    rw [dif_pos hlt]
    rw [htr r le_rfl hlt]
    by_cases hlast : r = maxRetries - 1
    · rw [if_pos hlast]
    · rw [if_neg hlast]
      exact ih (r + 1) (by omega) (by omega) (fun i h1 h2 => htr i (by omega) h2)

theorem updateObjectsGo_error_propagates (oracle : Nat → Nat → AttemptOutcome)
    (maxRetries : Nat) (c : List ApiObject) (rest : List (List ApiObject)) (b : Nat)
    (acc : List String) (e : UploadError)
    (h : (runBatchAttempts (oracle b) maxRetries b 0).2 = .error e) :
    (updateObjectsGo oracle maxRetries (c :: rest) b acc).2 = .error e := by
  unfold updateObjectsGo
  rcases hr : runBatchAttempts (oracle b) maxRetries b 0 with ⟨tr, res⟩
  rw [hr] at h
  simp only at h
  rw [h]

/-- C8: in the batched upload, a transient failure at one-based attempt
n below the retry limit is followed by a backoff sleep of 5n seconds and
a retry, so that a batch succeeding on attempt j+1 issues exactly j+1
requests with sleeps 5, 10, ... in between; transient failures on every
attempt up to the limit re-raise, and a raised batch error aborts the
whole upload, discarding the accumulated responses; a non-transient
error on the first attempt aborts immediately with a single request and
no sleep. -/
theorem c8_retry_backoff_and_abort :
    (∀ (oracle : Nat → AttemptOutcome) (maxRetries b j : Nat) (resp : List String),
      j < maxRetries → (∀ i, i < j → oracle i = .transient) →
      oracle j = .success resp →
      runBatchAttempts oracle maxRetries b 0 = (successTrace b 0 j, .ok resp)
        ∧ countRequests (successTrace b 0 j) = j + 1)
    ∧ (∀ (oracle : Nat → AttemptOutcome) (maxRetries b : Nat), 0 < maxRetries →
        (∀ i, i < maxRetries → oracle i = .transient) →
        (runBatchAttempts oracle maxRetries b 0).2 = .error .transient)
    ∧ (∀ (oracle : Nat → Nat → AttemptOutcome) (maxRetries : Nat)
        (c : List ApiObject) (rest : List (List ApiObject)) (b : Nat)
        (acc : List String) (e : UploadError),
        (runBatchAttempts (oracle b) maxRetries b 0).2 = .error e →
        (updateObjectsGo oracle maxRetries (c :: rest) b acc).2 = .error e)
    ∧ (∀ (oracle : Nat → AttemptOutcome) (maxRetries b : Nat), 0 < maxRetries →
        oracle 0 = .nonTransient →
        runBatchAttempts oracle maxRetries b 0
          = ([.request b 0], .error .nonTransient)) := by
  refine ⟨?_, ?_, ?_, ?_⟩
  · intro oracle maxRetries b j resp hj htr hsucc
    refine ⟨?_, countRequests_successTrace b j 0⟩
    exact runBatchAttempts_success oracle maxRetries b j 0 resp (by omega)
      (fun i h1 h2 => htr i (by omega)) (by simpa using hsucc)
  · intro oracle maxRetries b hm htr
    exact runBatchAttempts_exhaust oracle maxRetries b maxRetries 0 (by omega) hm
      (fun i h1 h2 => htr i h2)
  · intro oracle maxRetries c rest b acc e h
    exact updateObjectsGo_error_propagates oracle maxRetries c rest b acc e h
  · intro oracle maxRetries b hm h0
    unfold runBatchAttempts
    rw [dif_pos hm, h0]

/-- Witness for C8: a batch failing transiently twice and succeeding on
the third of three attempts; a batch exhausting all three attempts; the
driver discarding an accumulated response on a raised error; and an
immediately fatal non-transient error. -/
theorem c8_retry_backoff_and_abort_witness :
    (runBatchAttempts (fun i => if i < 2 then .transient else .success ["ok"]) 3 0 0
        = (successTrace 0 0 2, .ok ["ok"])
      ∧ countRequests (successTrace 0 0 2) = 3)
    ∧ (runBatchAttempts (fun _ => .transient) 3 0 0).2 = .error .transient
    ∧ (updateObjectsGo (fun _ _ => .transient) 3 [[]] 0 ["earlier"]).2
        = .error .transient
    ∧ runBatchAttempts (fun _ => .nonTransient) 3 0 0
        = ([.request 0 0], .error .nonTransient) := by
  refine ⟨?_, ?_, ?_, ?_⟩
  · exact c8_retry_backoff_and_abort.1
      (fun i => if i < 2 then .transient else .success ["ok"]) 3 0 2 ["ok"]
      (by omega) (by decide) (by decide)
  · exact c8_retry_backoff_and_abort.2.1 (fun _ => .transient) 3 0 (by omega) (by decide)
  · exact c8_retry_backoff_and_abort.2.2.1 (fun _ _ => .transient) 3 [] [] 0 ["earlier"]
      .transient (c8_retry_backoff_and_abort.2.1 (fun _ => .transient) 3 0 (by omega)
        (by decide))
  · exact c8_retry_backoff_and_abort.2.2.2 (fun _ => .nonTransient) 3 0 (by omega)
      (by decide)

/-- C6 counterexample: ColA is configured, not required and absent from
the sheet; the claim demands no error, yet validate_excel reports the
missing-column error from the per-column data pass. -/
theorem c6_missing_nonrequired_counterexample :
    requiredAny c6Validator "ColA" = false
      ∧ dataMissingColError "ColA" ∈ validateExcel c6Validator c6Df := by
  exact ⟨by decide, by decide⟩

theorem typeError?_some_error (row : Nat) (col : String) (value : PyVal)
    (meta : FieldMeta) (e : VError) (h : typeError? row col value meta = some e) :
    e.error ∈ ["Waarde moet een tekst zijn", "Waarde moet een getal zijn",
      "Waarde moet Ja, Nee of leeg zijn", "Waarde moet een geldige datum zijn"] := by
  unfold typeError? at h
  cases hty : meta.type? with
  | none => rw [hty] at h; exact absurd h (by simp)
  | some t =>
    rw [hty] at h
    dsimp only at h
    by_cases h1 : strToUpper t = "STRING"
    · simp only [h1] at h
      simp only [dictGet?, pyTypeValidators, pyTypeErrorMessages, List.find?] at h
      simp at h
      cases value <;> simp_all
      subst h
      simp
    · by_cases h2 : strToUpper t = "NUMBER"
      · simp only [h1, h2] at h
        simp only [dictGet?, pyTypeValidators, pyTypeErrorMessages, List.find?] at h
        simp at h
        obtain ⟨hb, he⟩ := h
        subst he
        simp
      · by_cases h3 : strToUpper t = "BOOLEAN"
        · simp only [h1, h2, h3] at h
          simp only [dictGet?, pyTypeValidators, pyTypeErrorMessages, List.find?] at h
          simp at h
          obtain ⟨hb, he⟩ := h
          subst he
          simp
        · by_cases h4 : strToUpper t = "DATE"
          · simp only [h1, h2, h3, h4] at h
            simp only [dictGet?, pyTypeValidators, pyTypeErrorMessages, List.find?] at h
            simp at h
            obtain ⟨hb, he⟩ := h
            subst he
            simp
          · have f1 : ("STRING" == strToUpper t) = false := by
              simp
              exact fun hh => h1 hh.symm
            have f2 : ("NUMBER" == strToUpper t) = false := by
              simp
              exact fun hh => h2 hh.symm
            have f3 : ("BOOLEAN" == strToUpper t) = false := by
              simp
              exact fun hh => h3 hh.symm
            have f4 : ("DATE" == strToUpper t) = false := by
              simp
              exact fun hh => h4 hh.symm
            simp only [dictGet?, pyTypeValidators, pyTypeErrorMessages, List.find?,
              f1, f2, f3, f4] at h
            simp at h

theorem formatError?_some_error (row : Nat) (col : String) (value : PyVal)
    (meta : FieldMeta) (e : VError) (h : formatError? row col value meta = some e) :
    e.error = "Waarde moet een geldig jaartal zijn" := by
  unfold formatError? at h
  split at h
  · exact absurd h (by simp)
  · split at h
    · split at h
      · split at h
        · exact absurd h (by simp)
        · simp only [Option.some.injEq] at h
          subst h
          rfl
      · simp only [Option.some.injEq] at h
        subst h
        rfl
    · exact absurd h (by simp)

theorem allowedError?_some_error (row : Nat) (col : String) (value : PyVal)
    (meta : FieldMeta) (e : VError) (h : allowedError? row col value meta = some e) :
    e.error = "Waarde moet één van de toegestane opties zijn" := by
  unfold allowedError? at h
  split at h
  · exact absurd h (by simp)
  · split at h
    · exact absurd h (by simp)
    · split at h
      · exact absurd h (by simp)
      · simp only [Option.some.injEq] at h
        subst h
        rfl

theorem validateColumnData_error_mem (df : DataFrame) (excelName : String)
    (meta : FieldMeta) (e : VError) (h : e ∈ validateColumnData df excelName meta) :
    e.error ∈ ["Verplicht veld mag niet leeg zijn", "Waarde moet een tekst zijn",
      "Waarde moet een getal zijn", "Waarde moet Ja, Nee of leeg zijn",
      "Waarde moet een geldige datum zijn", "Waarde moet een geldig jaartal zijn",
      "Waarde moet één van de toegestane opties zijn"] := by
  unfold validateColumnData at h
  rw [mem_collect] at h
  obtain ⟨p, _, hp⟩ := h
  dsimp only at hp
  split at hp
  · split at hp
    · simp only [List.mem_singleton] at hp
      subst hp
      simp
    · exact absurd hp (by simp)
  · simp only [List.mem_append, Option.mem_toList, Option.mem_def] at hp
    rcases hp with (hp | hp) | hp
    · have := typeError?_some_error _ _ _ _ _ hp
      simp only [List.mem_cons, List.mem_singleton] at this ⊢
      tauto
    · have := formatError?_some_error _ _ _ _ _ hp
      simp [this]
    · have := allowedError?_some_error _ _ _ _ _ hp
      simp [this]

theorem validateDataInColumns_mem_char (v : ExcelValidator) (df : DataFrame)
    (e : VError) (h : e ∈ validateDataInColumns v df) :
    e.expected = "Kolom aanwezig"
      ∨ e.error ∈ ["Verplicht veld mag niet leeg zijn", "Waarde moet een tekst zijn",
          "Waarde moet een getal zijn", "Waarde moet Ja, Nee of leeg zijn",
          "Waarde moet een geldige datum zijn", "Waarde moet een geldig jaartal zijn",
          "Waarde moet één van de toegestane opties zijn"] := by
  unfold validateDataInColumns at h
  rw [mem_collect] at h
  obtain ⟨p, _, hp⟩ := h
  split at hp
  · exact Or.inr (validateColumnData_error_mem _ _ _ _ hp)
  · simp only [List.mem_singleton] at hp
    subst hp
    exact Or.inl rfl

theorem validateRequiredColumns_error_mem (df : DataFrame) (excelCols : List String)
    (e : VError) (h : e ∈ validateRequiredColumns df excelCols) :
    e.error = "Verplichte systeemkolom ontbreekt"
      ∨ e.error = "Verplichte systeemkolom mag niet leeg zijn" := by
  unfold validateRequiredColumns at h
  rw [mem_collect] at h
  obtain ⟨col, hcol, hp⟩ := h
  split at hp
  · rw [mem_collect] at hp
    obtain ⟨q, _, hq⟩ := hp
    split at hq
    · simp only [List.mem_singleton] at hq
      subst hq
      exact Or.inr rfl
    · exact absurd hq (by simp)
  · simp only [List.mem_singleton] at hp
    subst hp
    exact Or.inl rfl

theorem validateExtraColumns_error_mem (excelCols configCols : List String) (e : VError)
    (h : e ∈ validateExtraColumns excelCols configCols) :
    e.error = "Onbekende kolom aanwezig" := by
  unfold validateExtraColumns at h
  simp only [List.mem_map] at h
  obtain ⟨c, _, hc⟩ := h
  subst hc
  rfl

theorem validateObjectType_error_mem (v : ExcelValidator) (df : DataFrame)
    (excelCols : List String) (e : VError) (h : e ∈ validateObjectType v df excelCols) :
    e.error = "Verplichte systeemkolom ontbreekt"
      ∨ e.error = "Verplichte systeemkolom mag niet leeg zijn"
      ∨ e.error = "ObjectType komt niet overeen met configuratie" := by
  unfold validateObjectType at h
  split at h
  · rw [mem_collect] at h
    obtain ⟨p, _, hp⟩ := h
    dsimp only at hp
    split at hp
    · simp only [List.mem_singleton] at hp
      subst hp
      exact Or.inr (Or.inl rfl)
    · split at hp
      · simp only [List.mem_singleton] at hp
        subst hp
        exact Or.inr (Or.inr rfl)
      · exact absurd hp (by simp)
  · simp only [List.mem_singleton] at h
    subst h
    exact Or.inl rfl

theorem validateMissingColumns_mem (v : ExcelValidator) (excelCols configCols : List String)
    (e : VError) (h : e ∈ validateMissingColumns v excelCols configCols) :
    ∃ c, e = missingColError c ∧ requiredAny v c = true := by
  unfold validateMissingColumns at h
  simp only [List.mem_map, List.mem_filter] at h
  obtain ⟨c, ⟨_, hreq⟩, hc⟩ := h
  exact ⟨c, hc.symm, hreq⟩

theorem mem_validateExcel (v : ExcelValidator) (df : DataFrame) (e : VError) :
    e ∈ validateExcel v df ↔
      e ∈ validateRequiredColumns df (setOfList df.cols)
      ∨ e ∈ validateMissingColumns v (setOfList df.cols)
          (setOfList (((reverseMapping v.columnsMapping).map (fun p => p.2))
            ++ ["objectType", "identifier"]))
      ∨ e ∈ validateExtraColumns (setOfList df.cols)
          (setOfList (((reverseMapping v.columnsMapping).map (fun p => p.2))
            ++ ["objectType", "identifier"]))
      ∨ e ∈ validateDataInColumns v df
      ∨ e ∈ validateObjectType v df (setOfList df.cols) := by
  unfold validateExcel
  simp only [List.mem_append]
  tauto

/-- C6 (amended): the column-set pass reports a configured-but-missing
column only when some underlying field is required, but the per-column
data pass reports every mapped configured column absent from the sheet
unconditionally, so a missing non-required configured column still
yields an error; and every uploaded column outside the configuration
yields the distinct unknown-column error. -/
theorem c6_missing_and_extra_columns (v : ExcelValidator) (df : DataFrame)
    (col : String) :
    (col ∈ (reverseMapping v.columnsMapping).map (fun p => p.2) →
      df.cols.contains col = false →
      dataMissingColError col ∈ validateExcel v df)
    ∧ (requiredAny v col = false → missingColError col ∉ validateExcel v df)
    ∧ (col ∈ df.cols →
      col ∉ (reverseMapping v.columnsMapping).map (fun p => p.2) →
      col ≠ "objectType" → col ≠ "identifier" →
      extraColError col ∈ validateExcel v df) := by
  refine ⟨?_, ?_, ?_⟩
  · intro hmap habs
    have hD : dataMissingColError col ∈ validateDataInColumns v df := by
      unfold validateDataInColumns
      rw [mem_collect]
      obtain ⟨p, hp, hp2⟩ := List.mem_map.mp hmap
      refine ⟨p, hp, ?_⟩
      have hc : df.cols.contains p.2 = false := by rw [hp2]; exact habs
      rw [if_neg (by rw [hc]; simp)]
      rw [hp2]
      exact List.mem_singleton.mpr rfl
    rw [mem_validateExcel]
    tauto
  · intro hreq he
    rw [mem_validateExcel] at he
    rcases he with hA | hB | hC | hD | hE
    · have := validateRequiredColumns_error_mem _ _ _ hA
      simp [missingColError] at this
    · obtain ⟨c, hc, hrc⟩ := validateMissingColumns_mem _ _ _ _ hB
      have hcc : c = col := by
        have := congrArg VError.column hc
        exact (by simpa [missingColError] using this : col = c).symm
      rw [hcc] at hrc
      rw [hrc] at hreq
      cases hreq
    · have := validateExtraColumns_error_mem _ _ _ hC
      simp [missingColError] at this
    · rcases validateDataInColumns_mem_char _ _ _ hD with hexp | herr
      · simp [missingColError, dataMissingColError] at hexp
      · simp [missingColError] at herr
    · have := validateObjectType_error_mem _ _ _ _ hE
      simp [missingColError] at this
  · intro hin hnmap hno hni
    have hnotin : col ∉ setOfList (((reverseMapping v.columnsMapping).map (fun p => p.2))
        ++ ["objectType", "identifier"]) := by
      rw [mem_setOfList]
      simp only [List.mem_append, List.mem_cons, List.mem_singleton]
      push_neg
      exact ⟨hnmap, hno, hni, by simp⟩
    have hmemE : extraColError col ∈ validateExtraColumns (setOfList df.cols)
        (setOfList (((reverseMapping v.columnsMapping).map (fun p => p.2))
          ++ ["objectType", "identifier"])) := by
      unfold validateExtraColumns
      apply List.mem_map.mpr
      refine ⟨col, ?_, rfl⟩
      apply List.mem_filter.mpr
      constructor
      · exact (mem_setOfList _ _).mpr hin
      · simp [hnotin]
    rw [mem_validateExcel]
    tauto

/-- Witness for C6 (amended) on the ColA fixture and on an extra column
ColX. -/
theorem c6_missing_and_extra_columns_witness :
    dataMissingColError "ColA" ∈ validateExcel c6Validator c6Df
      ∧ missingColError "ColA" ∉ validateExcel c6Validator c6Df
      ∧ extraColError "ColX" ∈ validateExcel c6Validator
          ⟨["objectType", "identifier", "ColX"],
            [[("objectType", .str "B"), ("identifier", .str "X1"),
              ("ColX", .str "v")]]⟩ := by
  refine ⟨?_, ?_, ?_⟩
  · exact (c6_missing_and_extra_columns c6Validator c6Df "ColA").1 (by decide) (by decide)
  · exact (c6_missing_and_extra_columns c6Validator c6Df "ColA").2.1 (by decide)
  · exact (c6_missing_and_extra_columns c6Validator _ "ColX").2.2 (by decide) (by decide)
      (by decide) (by decide)
